import Mathlib

/-!
Shallow embedding of the request-gatekeeping pipeline of the clinical-sample
service (`app/middleware/security_middleware.py`, `app/middleware/logging_middleware.py`,
`app/core/exceptions.py`, `app/main.py`).

Timestamps (Python `time.time()` floats) are modelled as rationals.  Python
`int(...)` applied to a nonnegative float is truncation toward zero, modelled
by `pyInt`.  Logging calls are pure side effects and are not modelled except
where a claim mentions the emitted `SecurityEvent` (the timeout guard).

The composition of the middleware stack follows Starlette semantics, which the
repository relies on: `app.add_middleware` prepends, so the middleware added
last in `app/main.py` is outermost; exceptions raised inside a
`BaseHTTPMiddleware.dispatch` itself propagate outward past all remaining
middleware to Starlette's outermost `ServerErrorMiddleware`, because the
typed exception handlers live in the innermost `ExceptionMiddleware`, which
only wraps the router.  `build_middleware_stack` installs the one handler
keyed on `Exception` — `app/main.py`'s `global_exception_handler` — as the
`ServerErrorMiddleware` handler, so such an exception is rendered as the
structured JSON 500 with error code `INTERNAL_ERROR` (with `settings.debug =
False`, the deployed default, which this model fixes: in debug mode Starlette
would render its own traceback page instead).
-/

namespace ClinicalGate

/-- Minimal JSON-ish value type for the `details` dictionaries of the
service's error payloads. -/
inductive JVal where
  | s (v : String)
  | i (v : Int)
  | b (v : Bool)
  | ls (v : List String)
deriving DecidableEq

/-- Python `int()` on a rational (models `int(...)` on a float): truncation
toward zero.  `Int.tdiv` is T-division, which truncates toward zero. -/
def pyInt (q : ℚ) : Int := Int.tdiv q.num (q.den : Int)

/-- Python truthiness of an `Optional[int]`: `None` and `0` are falsy. -/
def pyTruthyInt : Option Int → Bool
  | none => false
  | some n => n != 0

/-- Header list with Starlette's case-insensitive lookup (`headers.get`). -/
def headerLookup (hs : List (String × String)) (name : String) : Option String :=
  (hs.find? (fun p => p.1.toLower == name.toLower)).map (·.2)

/-- Starlette `MutableHeaders.__setitem__`: drop existing entries for the key
(case-insensitively) and append the new one. -/
def setHeader (hs : List (String × String)) (k v : String) : List (String × String) :=
  hs.filter (fun p => p.1.toLower != k.toLower) ++ [(k, v)]

/-- An inbound HTTP request as the middleware sees it: method, path, headers,
fully-buffered body (`await request.body()`), and the transport peer host
(`request.client.host`, absent when there is no transport peer). -/
structure Request where
  method : String
  path : String
  headers : List (String × String)
  body : String
  client : Option String
deriving DecidableEq

/-- Case-insensitive request-header access, `request.headers.get(name)`. -/
def Request.header (req : Request) (name : String) : Option String :=
  headerLookup req.headers name

/-- Structured JSON error body produced by the exception handlers in
`app/main.py` and by the timeout guard: together with the fixed `error: true`
flag and a timestamp (not modelled: wall-clock string). -/
structure ErrorBody where
  message : String
  errorCode : String
  details : List (String × JVal)
deriving DecidableEq

/-- Response body content: empty, plain text, a structured error document, or
an opaque payload produced by the business handler. -/
inductive Body where
  | empty
  | text (s : String)
  | errJson (e : ErrorBody)
  | handlerData (tag : Nat)
deriving DecidableEq

/-- An outbound HTTP response. -/
structure Response where
  status : Nat
  headers : List (String × String)
  body : Body
deriving DecidableEq

/-- Case-insensitive response-header access. -/
def Response.header (r : Response) (name : String) : Option String :=
  headerLookup r.headers name

/-- The `ValidationError` of `app/core/exceptions.py`: status 400, error code
`VALIDATION_ERROR`; `field`, when truthy, is added to the details. -/
structure ValidationErrorE where
  message : String
  details : List (String × JVal)
deriving DecidableEq

/-- The `ValidationError.__init__` constructor: `if field:` adds the field
name to the details (Python string truthiness: `None` and `""` are falsy). -/
def mkValidationError (message : String) (field : Option String)
    (details : List (String × JVal)) : ValidationErrorE :=
  match field with
  | some f => if f ≠ "" then ⟨message, details ++ [("field", .s f)]⟩ else ⟨message, details⟩
  | none => ⟨message, details⟩

/-- The `RateLimitError` of `app/core/exceptions.py`: status 429, error code
`RATE_LIMIT_ERROR`. -/
structure RateLimitErrorE where
  message : String
  details : List (String × JVal)
deriving DecidableEq

/-- The `RateLimitError.__init__` constructor: `if retry_after:` adds the
value to the details, so `None` and `0` are both dropped. -/
def mkRateLimitError (message : String) (retryAfter : Option Int)
    (details : List (String × JVal)) : RateLimitErrorE :=
  if pyTruthyInt retryAfter then
    ⟨message, details ++ [("retry_after", .i (retryAfter.getD 0))]⟩
  else ⟨message, details⟩

/-- The typed errors the gatekeeping middleware can raise. -/
inductive AppError where
  | validation (e : ValidationErrorE)
  | rateLimit (e : RateLimitErrorE)
deriving DecidableEq

/-- Render a `JVal` the way `str(...)` renders the stored value. -/
def JVal.render : JVal → String
  | .s v => v
  | .i v => toString v
  | .b v => toString v
  | .ls v => toString v

/-- The centralized translator: the `@app.exception_handler` functions of
`app/main.py` (`validation_error_handler`, `rate_limit_error_handler`).  The
rate-limit handler adds a `Retry-After` header only when `retry_after` is a
key of the error's details. -/
def renderAPIError (e : AppError) : Response :=
  match e with
  | .validation v => ⟨400, [], .errJson ⟨v.message, "VALIDATION_ERROR", v.details⟩⟩
  | .rateLimit r =>
    let base : Response := ⟨429, [], .errJson ⟨r.message, "RATE_LIMIT_ERROR", r.details⟩⟩
    match r.details.lookup "retry_after" with
    | some v => { base with headers := setHeader base.headers "Retry-After" v.render }
    | none => base

/-- Configuration of `RateLimitMiddleware.__init__`. -/
structure RLConfig where
  requestsPerMinute : Nat
  burstLimit : Nat
  windowSize : Int
  whitelist : List String
deriving DecidableEq

/-- The pruning step of `_check_rate_limit`: keep timestamps strictly newer
than `now - window_size` (`req_time > cutoff_time`). -/
def pruneOld (windowSize : Int) (now : ℚ) (ts : List ℚ) : List ℚ :=
  ts.filter (fun t => decide (now - (windowSize : ℚ) < t))

/-- The trailing-burst filter of `_check_rate_limit`: timestamps strictly
newer than `now - 10` (the burst sub-window is the hard-coded 10 seconds). -/
def recentOf (now : ℚ) (ts : List ℚ) : List ℚ :=
  ts.filter (fun t => decide (now - 10 < t))

/-- The `retry_after` computed on a sustained-limit rejection:
`int(self.window_size - (current_time - client_requests[0]))`.  The `headD 0`
models `client_requests[0]`; the list is nonempty whenever the rejection
branch is reached with a positive limit. -/
def sustainedRetryAfter (windowSize : Int) (pruned : List ℚ) (now : ℚ) : Int :=
  pyInt ((windowSize : ℚ) - (now - pruned.headD 0))

/-- Outcome of one `_check_rate_limit` call on one client: the raised error,
if any, and the client's timestamp list after the call (the prune mutates the
stored list in place; an admission also appends `now`). -/
structure RLResult where
  error : Option RateLimitErrorE
  newTimestamps : List ℚ
deriving DecidableEq

/-- `RateLimitMiddleware._check_rate_limit` for a single client key:
whitelisted clients return untouched; otherwise prune, reject on the
sustained limit (with computed `retry_after`), then reject on the burst limit
(`retry_after = 10`), else append `now` and admit. -/
def checkRateLimit (cfg : RLConfig) (clientIp : String) (ts : List ℚ) (now : ℚ) : RLResult :=
  if clientIp ∈ cfg.whitelist then ⟨none, ts⟩
  else
    let pruned := pruneOld cfg.windowSize now ts
    if cfg.requestsPerMinute ≤ pruned.length then
      ⟨some (mkRateLimitError
          ("Rate limit exceeded. Too many requests from " ++ clientIp)
          (some (sustainedRetryAfter cfg.windowSize pruned now))
          [("limit", .i (cfg.requestsPerMinute : Int)),
           ("window_seconds", .i cfg.windowSize),
           ("requests_count", .i (pruned.length : Int))]),
        pruned⟩
    else
      let recent := recentOf now pruned
      if cfg.burstLimit ≤ recent.length then
        ⟨some (mkRateLimitError
            ("Burst limit exceeded. Too many requests in short period from " ++ clientIp)
            (some 10)
            [("burst_limit", .i (cfg.burstLimit : Int)),
             ("window_seconds", .i 10),
             ("recent_requests", .i (recent.length : Int))]),
          pruned⟩
      else ⟨none, pruned ++ [now]⟩

/-- `RateLimitMiddleware._get_client_ip`, abstracted over the three inputs it
reads.  Python truthiness: a header that is absent or the empty string falls
through; a present non-empty `X-Forwarded-For` returns its first
comma-separated entry stripped, even when that entry is empty. -/
def getClientIp (xff realIp clientHost : Option String) : String :=
  let f := xff.getD ""
  if f ≠ "" then ((f.splitOn ",").headD "").trim
  else
    let r := realIp.getD ""
    if r ≠ "" then r.trim
    else clientHost.getD "unknown"

/-- Client-key resolution on a request. -/
def requestClientIp (req : Request) : String :=
  getClientIp (req.header "X-Forwarded-For") (req.header "X-Real-IP") req.client

/-- Modelled from the spec (claim wording, for comparison): the client key is
the first non-empty of the trimmed first comma-entry of the forwarded-for
header, the real-ip header and the peer address, else `"unknown"`. -/
def specClientIp (xff realIp clientHost : Option String) : String :=
  let c1 := (((xff.getD "").splitOn ",").headD "").trim
  if c1 ≠ "" then c1
  else
    let c2 := realIp.getD ""
    if c2 ≠ "" then c2
    else
      let c3 := clientHost.getD ""
      if c3 ≠ "" then c3 else "unknown"

/-- The Content-Security-Policy value set by `SecurityHeadersMiddleware`
(single quotes written as escapes). -/
def cspValue : String :=
  "default-src \x27self\x27; " ++
  "script-src \x27self\x27 \x27unsafe-inline\x27 \x27unsafe-eval\x27 https://cdn.jsdelivr.net https://unpkg.com; " ++
  "style-src \x27self\x27 \x27unsafe-inline\x27 https://cdn.jsdelivr.net https://unpkg.com https://fonts.googleapis.com; " ++
  "img-src \x27self\x27 data: https:; " ++
  "connect-src \x27self\x27 https://cdn.jsdelivr.net https://unpkg.com; " ++
  "font-src \x27self\x27 https://fonts.gstatic.com https://cdn.jsdelivr.net https://unpkg.com; " ++
  "object-src \x27none\x27; " ++
  "base-uri \x27self\x27; " ++
  "form-action \x27self\x27"

/-- The Permissions-Policy value set by `SecurityHeadersMiddleware`. -/
def permissionsPolicyValue : String :=
  "camera=(), microphone=(), geolocation=(), " ++
  "payment=(), usb=(), accelerometer=(), " ++
  "gyroscope=(), magnetometer=()"

/-- `SecurityHeadersMiddleware._add_security_headers`: unconditionally set the
six fixed security headers and, only when HSTS is enabled, the
`Strict-Transport-Security` header. -/
def addSecurityHeaders (enableHsts : Bool) (r : Response) : Response :=
  let hs := setHeader r.headers "X-Content-Type-Options" "nosniff"
  let hs := setHeader hs "X-Frame-Options" "DENY"
  let hs := setHeader hs "X-XSS-Protection" "1; mode=block"
  let hs := setHeader hs "Referrer-Policy" "strict-origin-when-cross-origin"
  let hs := setHeader hs "Content-Security-Policy" cspValue
  let hs := setHeader hs "Permissions-Policy" permissionsPolicyValue
  let hs :=
    if enableHsts then
      setHeader hs "Strict-Transport-Security" "max-age=31536000; includeSubDomains; preload"
    else hs
  { r with headers := hs }

/-- A security audit event (`log_security_event`).  Only the timeout guard's
event is needed by the claims; the other components' events are log-only. -/
structure SecurityEvent where
  eventType : String
  details : List (String × JVal)
deriving DecidableEq

/-- The synthesized 408 response of `RequestTimeoutMiddleware.dispatch`
(`media_type="application/json"`; the ISO timestamp field is not modelled). -/
def timeoutResponse (timeoutSeconds : Int) : Response :=
  ⟨408, [("content-type", "application/json")],
    .errJson ⟨"Request timeout", "REQUEST_TIMEOUT", [("timeout_seconds", .i timeoutSeconds)]⟩⟩

/-- The `request_timeout` SecurityEvent emitted by the timeout guard. -/
def requestTimeoutEvent (req : Request) (timeoutSeconds : Int) : SecurityEvent :=
  ⟨"request_timeout",
    [("endpoint", .s req.path), ("method", .s req.method),
     ("timeout_seconds", .i timeoutSeconds),
     ("client_ip", .s (req.client.getD "unknown"))]⟩

deriving instance DecidableEq for Except

/-- Result of running a (partial) middleware stack on a request: the outcome
(a response, or a typed error propagating outward), how long the downstream
work ran, and the security events emitted. -/
structure AppResult where
  outcome : Except AppError Response
  duration : ℚ
  events : List SecurityEvent
deriving DecidableEq

/-- Opaque downstream handler behaviour: how long it runs and whether it
returns a response or raises a typed error. -/
structure HandlerRun where
  duration : ℚ
  result : Except AppError Response
deriving DecidableEq

/-- `RequestTimeoutMiddleware.dispatch`: `asyncio.wait_for` with the
configured deadline.  If the downstream work finishes (or raises) within the
deadline its result passes through unchanged; otherwise the handler is
cancelled at the deadline, a `request_timeout` event is emitted and the fixed
408 body is synthesized (returned, not raised). -/
def timeoutRun (timeoutSeconds : Int) (req : Request) (inner : AppResult) : AppResult :=
  if (timeoutSeconds : ℚ) < inner.duration then
    ⟨.ok (timeoutResponse timeoutSeconds), (timeoutSeconds : ℚ),
      inner.events ++ [requestTimeoutEvent req timeoutSeconds]⟩
  else inner

/-- The skip list of `ContentTypeValidationMiddleware._should_skip_validation`. -/
def skipPaths : List String := ["/health", "/", "/docs", "/redoc", "/openapi.json"]

/-- Per-method allowed content types (`self.allowed_content_types`), keyed on
POST, PUT and PATCH; every other method has no entry. -/
def allowedContentTypesFor (method : String) : List String :=
  if method = "POST" ∨ method = "PUT" ∨ method = "PATCH" then
    ["application/json", "application/x-www-form-urlencoded", "multipart/form-data"]
  else []

/-- Does the method have a content-type rule
(`request.method in self.allowed_content_types`)? -/
def methodHasContentTypeRule (method : String) : Bool :=
  method == "POST" || method == "PUT" || method == "PATCH"

/-- The base MIME type: lower-cased header, parameters after the first `;`
dropped, surrounding whitespace stripped. -/
def baseContentType (req : Request) : String :=
  let contentType := (req.header "content-type" |>.getD "").toLower
  ((contentType.splitOn ";").headD "").trim

/-- `ContentTypeValidationMiddleware._validate_content_type`: with a
non-empty buffered body whose base MIME type is not in the method's allowed
set, raise a `ValidationError` naming the offending type and the allowed
set; otherwise pass. -/
def validateContentType (req : Request) : Option ValidationErrorE :=
  let contentType := (req.header "content-type" |>.getD "").toLower
  let hasBody := req.body ≠ ""
  if hasBody ∧ ¬ baseContentType req ∈ allowedContentTypesFor req.method then
    some (mkValidationError ("Invalid Content-Type: " ++ contentType) none
      [("content_type", .s contentType),
       ("allowed_types", .ls (allowedContentTypesFor req.method))])
  else none

/-- `ContentTypeValidationMiddleware.dispatch`: skip whitelisted paths, apply
the check only to methods with a content-type rule, raise on failure, else
fall through to the next stage. -/
def contentTypeRun (req : Request) (inner : AppResult) : AppResult :=
  if req.path ∈ skipPaths then inner
  else if methodHasContentTypeRule req.method then
    match validateContentType req with
    | some e => ⟨.error (.validation e), 0, []⟩
    | none => inner
  else inner

/-- Python `int(s)` on a decimal string: optional surrounding whitespace,
optional sign, at least one digit; anything else raises `ValueError`
(modelled as `none`). -/
def pyParseInt (s : String) : Option Int :=
  let cs := s.trim.toList
  let signAndDigits : Int × List Char :=
    match cs with
    | '-' :: rest => (-1, rest)
    | '+' :: rest => (1, rest)
    | _ => (1, cs)
  if signAndDigits.2 ≠ [] ∧ signAndDigits.2.all (·.isDigit) then
    some (signAndDigits.1 * (signAndDigits.2.foldl (fun a c => a * 10 + (c.toNat - 48)) 0 : Nat))
  else none

/-- Methods for which `PayloadSizeValidationMiddleware` reads and measures
the buffered body (`request.method in \x7b"POST", "PUT", "PATCH"\x7d`). -/
def bodyCarryingMethod (m : String) : Bool :=
  m == "POST" || m == "PUT" || m == "PATCH"

/-- The `ValidationError` raised for an oversized payload. -/
def payloadTooLargeError (size : Int) (maxSizeBytes : Nat) : ValidationErrorE :=
  mkValidationError ("Request payload too large: " ++ toString size ++ " bytes") none
    [("size_bytes", .i size),
     ("max_size_bytes", .i (maxSizeBytes : Int)),
     ("max_size_mb", .i ((maxSizeBytes / (1024 * 1024) : Nat) : Int))]

/-- The declared length usable by the guard: a present, non-empty (Python
truthiness) `Content-Length` header that parses as an integer; an
unparseable header only logs a warning, i.e. is unusable. -/
def usableDeclaredLength (req : Request) : Option Int :=
  match req.header "content-length" with
  | none => none
  | some cl => if cl = "" then none else pyParseInt cl

/-- The pre-read declared-size check of `PayloadSizeValidationMiddleware`:
reject when the usable declared length exceeds the limit. -/
def declaredSizeReject (maxSizeBytes : Nat) (req : Request) : Option ValidationErrorE :=
  match usableDeclaredLength req with
  | some size => if (maxSizeBytes : Int) < size then some (payloadTooLargeError size maxSizeBytes) else none
  | none => none

/-- `PayloadSizeValidationMiddleware.dispatch`: first the declared-length
check (no body read); then, for body-carrying methods only, read the body
and reject post-hoc when its measured size exceeds the limit; else continue
downstream. -/
def payloadSizeRun (maxSizeBytes : Nat) (req : Request) (inner : AppResult) : AppResult :=
  match declaredSizeReject maxSizeBytes req with
  | some e => ⟨.error (.validation e), 0, []⟩
  | none =>
    if bodyCarryingMethod req.method then
      if maxSizeBytes < req.body.length then
        ⟨.error (.validation (payloadTooLargeError (req.body.length : Int) maxSizeBytes)), 0, []⟩
      else inner
    else inner

/-- The whole gatekeeping configuration resolved in `app/main.py` from the
settings object. -/
structure GateConfig where
  requestsPerMinute : Nat
  burstLimit : Nat
  windowSize : Int
  whitelist : List String
  timeoutSeconds : Int
  maxSizeBytes : Nat
  enableHsts : Bool
deriving DecidableEq

/-- The rate-limiter slice of the configuration. -/
def GateConfig.toRLConfig (cfg : GateConfig) : RLConfig :=
  ⟨cfg.requestsPerMinute, cfg.burstLimit, cfg.windowSize, cfg.whitelist⟩

/-- The region below the security-header middleware: the router with the
registered exception handlers (innermost `ExceptionMiddleware`) renders a
typed handler error as its JSON response; then
`SecurityHeadersMiddleware.dispatch` decorates whatever response comes back
up.  Handler-raised typed errors therefore do receive the security headers. -/
def handlerRegion (enableHsts : Bool) (hrun : HandlerRun) : AppResult :=
  let rendered : Response :=
    match hrun.result with
    | .ok r => r
    | .error e => renderAPIError e
  ⟨.ok (addSecurityHeaders enableHsts rendered), hrun.duration, []⟩

/-- The response for an exception that escaped the user middleware.
`app/main.py` registers `@app.exception_handler(Exception)`
(`global_exception_handler`); Starlette's `build_middleware_stack` routes
handlers keyed on `Exception`/500 into the outermost `ServerErrorMiddleware`
as its handler, which (with `settings.debug = False`, the deployed default)
renders the structured JSON 500 with error code `INTERNAL_ERROR` and empty
details — not the rejection's own status, code or details, and not a raw
stack trace. -/
def globalExceptionResponse : Response :=
  ⟨500, [], .errJson ⟨"Internal server error", "INTERNAL_ERROR", []⟩⟩

/-- Result of the full composed application on one request. -/
structure PipelineResult where
  response : Response
  newTimestamps : List ℚ
  events : List SecurityEvent
deriving DecidableEq

/-- The full middleware stack of `app/main.py` on a single request.
`add_middleware` prepends, so the composition is (outermost first)
performance/security/request logging, then `RateLimitMiddleware`,
`RequestTimeoutMiddleware`, `ContentTypeValidationMiddleware`,
`PayloadSizeValidationMiddleware`, `SecurityHeadersMiddleware`, and the
router with the exception handlers.  A typed error raised by a guard's
`dispatch` propagates outward (the logging middleware re-raises), never
reaching the typed handlers registered on the innermost `ExceptionMiddleware`,
and is rendered by `ServerErrorMiddleware` through the registered global
`Exception` handler as the structured `INTERNAL_ERROR` JSON 500.  On the
success path
`LoggingMiddleware` sets the `X-Correlation-ID` header (reusing the inbound
header when truthy, else the freshly generated `corrId`). -/
def runPipeline (cfg : GateConfig) (corrId : String) (req : Request)
    (ts : List ℚ) (now : ℚ) (hrun : HandlerRun) : PipelineResult :=
  let rl := checkRateLimit cfg.toRLConfig (requestClientIp req) ts now
  match rl.error with
  | some _ => ⟨globalExceptionResponse, rl.newTimestamps, []⟩
  | none =>
    let inner :=
      timeoutRun cfg.timeoutSeconds req
        (contentTypeRun req
          (payloadSizeRun cfg.maxSizeBytes req
            (handlerRegion cfg.enableHsts hrun)))
    match inner.outcome with
    | .ok resp =>
      let cid :=
        match req.header "X-Correlation-ID" with
        | some c => if c ≠ "" then c else corrId
        | none => corrId
      ⟨{ resp with headers := setHeader resp.headers "X-Correlation-ID" cid },
        rl.newTimestamps, inner.events⟩
    | .error _ => ⟨globalExceptionResponse, rl.newTimestamps, inner.events⟩

/-- Run a sequence of requests of one client through the rate limiter,
threading the per-client timestamp list, and collect the per-request
outcomes (`none` = admitted) together with the final timestamp list. -/
def runRequests (cfg : RLConfig) (ip : String) (times : List ℚ) (ts : List ℚ) :
    List (Option RateLimitErrorE) × List ℚ :=
  match times with
  | [] => ([], ts)
  | t :: rest =>
    let r := checkRateLimit cfg ip ts t
    let tail := runRequests cfg ip rest r.newTimestamps
    (r.error :: tail.1, tail.2)

section Lemmas

/-- Looking a key up in an appended association list skips a prefix that does
not contain it. -/
theorem lookup_append_of_none {β : Type} (l₁ l₂ : List (String × β)) (k : String)
    (h : l₁.lookup k = none) : (l₁ ++ l₂).lookup k = l₂.lookup k := by
  induction l₁ with
  | nil => rfl
  | cons a t ih =>
    simp only [List.lookup, List.cons_append] at *
    split at h
    · exact absurd h (by simp)
    · rename_i hne
      simp only [List.lookup, hne] at *
      exact ih h

/-- `headD` of a nonempty list is a member. -/
theorem headD_mem {α : Type} (l : List α) (d : α) (h : l ≠ []) : l.headD d ∈ l := by
  cases l with
  | nil => exact absurd rfl h
  | cons a t => simp [List.headD]

/-- Truncation toward zero of a nonnegative rational is nonnegative. -/
theorem pyInt_nonneg {q : ℚ} (h : 0 ≤ q) : 0 ≤ pyInt q :=
  Int.tdiv_nonneg (Rat.num_nonneg.mpr h) (Int.natCast_nonneg _)

/-- Every timestamp surviving the prune is strictly inside the window. -/
theorem mem_pruneOld {w : Int} {now x : ℚ} {ts : List ℚ} (h : x ∈ pruneOld w now ts) :
    now - (w : ℚ) < x :=
  of_decide_eq_true (List.mem_filter.mp h).2

/-- The prune keeps a list all of whose entries are inside the window. -/
theorem pruneOld_keep_all {w : Int} {now : ℚ} {ts : List ℚ}
    (h : ∀ x ∈ ts, now - (w : ℚ) < x) : pruneOld w now ts = ts :=
  List.filter_eq_self.mpr fun x hx => decide_eq_true (h x hx)

/-- The burst filter keeps a list all of whose entries are inside the
trailing 10-second sub-window. -/
theorem recentOf_keep_all {now : ℚ} {ts : List ℚ}
    (h : ∀ x ∈ ts, now - 10 < x) : recentOf now ts = ts :=
  List.filter_eq_self.mpr fun x hx => decide_eq_true (h x hx)

/-- Looking a header up right after setting it on an empty header list
returns the set value, provided the keys agree case-insensitively. -/
theorem headerLookup_set_single (k v name : String)
    (h : (k.toLower == name.toLower) = true) :
    headerLookup (setHeader [] k v) name = some v := by
  simp [headerLookup, setHeader, List.find?, h]

/-- The rate-limit handler always renders status 429. -/
theorem renderAPIError_rateLimit_status (e : RateLimitErrorE) :
    (renderAPIError (.rateLimit e)).status = 429 := by
  cases hx : e.details.lookup "retry_after" with
  | none => simp only [renderAPIError, hx]
  | some v => simp only [renderAPIError, hx]

/-- The rate-limit handler's `Retry-After` header is the rendering of the
`retry_after` details entry when present, else absent. -/
theorem renderAPIError_rateLimit_header (e : RateLimitErrorE) :
    (renderAPIError (.rateLimit e)).header "Retry-After" =
      (e.details.lookup "retry_after").map JVal.render := by
  cases hx : e.details.lookup "retry_after" with
  | none =>
    simp only [renderAPIError, hx, Option.map]
    rfl
  | some v =>
    simp only [renderAPIError, hx, Option.map, Response.header]
    exact headerLookup_set_single _ _ _ (by with_unfolding_all decide)

/-- A request of a non-whitelisted client passing both the sustained and the
burst check is let through with its timestamp appended. -/
theorem checkRateLimit_pass (cfg : RLConfig) (ip : String) (ts : List ℚ) (now : ℚ)
    (hw : ip ∉ cfg.whitelist)
    (h1 : (pruneOld cfg.windowSize now ts).length < cfg.requestsPerMinute)
    (h2 : (recentOf now (pruneOld cfg.windowSize now ts)).length < cfg.burstLimit) :
    checkRateLimit cfg ip ts now = ⟨none, pruneOld cfg.windowSize now ts ++ [now]⟩ := by
  simp only [checkRateLimit]
  rw [if_neg hw, if_neg (Nat.not_le.mpr h1), if_neg (Nat.not_le.mpr h2)]

/-- A request of a non-whitelisted client passing the sustained check but
hitting the burst ceiling is rejected with `retry_after = 10` and no
timestamp appended. -/
theorem checkRateLimit_burst_reject (cfg : RLConfig) (ip : String) (ts : List ℚ) (now : ℚ)
    (hw : ip ∉ cfg.whitelist)
    (h1 : (pruneOld cfg.windowSize now ts).length < cfg.requestsPerMinute)
    (h2 : cfg.burstLimit ≤ (recentOf now (pruneOld cfg.windowSize now ts)).length) :
    checkRateLimit cfg ip ts now =
      ⟨some (mkRateLimitError
          ("Burst limit exceeded. Too many requests in short period from " ++ ip)
          (some 10)
          [("burst_limit", .i (cfg.burstLimit : Int)), ("window_seconds", .i 10),
           ("recent_requests", .i ((recentOf now (pruneOld cfg.windowSize now ts)).length : Int))]),
        pruneOld cfg.windowSize now ts⟩ := by
  simp only [checkRateLimit]
  rw [if_neg hw, if_neg (Nat.not_le.mpr h1), if_pos h2]

/-- Starting from a per-client state whose entries all lie in one open
10-second span, a sequence of requests inside that span is admitted wholesale
as long as the total count stays at most the burst limit (which is itself at
most the sustained limit). -/
theorem runRequests_all_pass (cfg : RLConfig) (ip : String)
    (hw : ip ∉ cfg.whitelist) (h10 : 10 ≤ cfg.windowSize)
    (hbr : cfg.burstLimit ≤ cfg.requestsPerMinute) (base : ℚ) :
    ∀ (times s : List ℚ),
      (∀ t ∈ s, base ≤ t ∧ t < base + 10) →
      (∀ t ∈ times, base ≤ t ∧ t < base + 10) →
      s.length + times.length ≤ cfg.burstLimit →
      runRequests cfg ip times s = (times.map (fun _ => none), s ++ times) := by
  intro times
  induction times with
  | nil =>
    intro s _ _ _
    simp [runRequests]
  | cons t rest ih =>
    intro s hs ht hlen
    have hbt : base ≤ t ∧ t < base + 10 := ht t (by simp)
    have hw10 : (10 : ℚ) ≤ (cfg.windowSize : ℚ) := by exact_mod_cast h10
    have hprune : pruneOld cfg.windowSize t s = s :=
      pruneOld_keep_all fun x hx => by have hxb := hs x hx; linarith [hbt.2, hxb.1]
    have hrecent : recentOf t s = s :=
      recentOf_keep_all fun x hx => by have hxb := hs x hx; linarith [hbt.2, hxb.1]
    have hslen : s.length < cfg.burstLimit := by
      simp only [List.length_cons] at hlen; omega
    have hstep : checkRateLimit cfg ip s t = ⟨none, s ++ [t]⟩ := by
      have := checkRateLimit_pass cfg ip s t hw (by rw [hprune]; omega)
        (by rw [hprune, hrecent]; omega)
      rwa [hprune] at this
    have hs' : ∀ x ∈ s ++ [t], base ≤ x ∧ x < base + 10 := by
      intro x hx
      rcases List.mem_append.mp hx with hx1 | hx1
      · exact hs x hx1
      · rcases List.mem_singleton.mp hx1 with rfl
        exact hbt
    have hlen' : (s ++ [t]).length + rest.length ≤ cfg.burstLimit := by
      simp only [List.length_append, List.length_singleton, List.length_cons,
        List.length_nil] at *
      omega
    have htail := ih (s ++ [t]) hs' (fun x hx => ht x (by simp [hx])) hlen'
    simp only [runRequests, hstep, htail]
    simp

end Lemmas

set_option maxRecDepth 40000

/-- C1: the claim fails on the code.  `app/main.py` adds
`SecurityHeadersMiddleware` first, and Starlette's `add_middleware` prepends,
so the header injector sits innermost, below every guard.  A guard rejection
(here: a rate-limited request) is raised from middleware `dispatch`, never
reaches the header injector (nor the typed translators), and is rendered by
the registered global `Exception` handler as the `INTERNAL_ERROR` JSON 500 —
carrying none of the six security headers. -/
theorem c1_guard_rejected_response_lacks_security_headers :
    (runPipeline ⟨1, 1, 60, [], 30, 1000, false⟩ "cid"
        ⟨"GET", "/api/v1/samples", [], "", some "9.9.9.9"⟩ [(59 : ℚ)] 60
        ⟨1, .ok ⟨200, [], .handlerData 0⟩⟩).response = globalExceptionResponse ∧
    globalExceptionResponse.header "X-Content-Type-Options" = none ∧
    globalExceptionResponse.header "X-Frame-Options" = none ∧
    globalExceptionResponse.header "X-XSS-Protection" = none ∧
    globalExceptionResponse.header "Referrer-Policy" = none ∧
    globalExceptionResponse.header "Content-Security-Policy" = none ∧
    globalExceptionResponse.header "Permissions-Policy" = none ∧
    globalExceptionResponse.header "Strict-Transport-Security" = none := by
  with_unfolding_all decide

/-- C2: the claim fails on the code.  Guard rejections do raise immediately
and skip the handler, but the typed exception handlers live on the innermost
`ExceptionMiddleware`, below all the guard middleware, so a `ValidationError`
raised by the content-type guard (or a `RateLimitError` from the rate
limiter) never reaches its translator: the client receives the generic
`INTERNAL_ERROR` JSON 500 rendered by the global `Exception` handler in
`ServerErrorMiddleware` — a 500 without the rejection's message, code or
details, not the structured 400/429 body of the claim. -/
theorem c2_guard_rejection_bypasses_translator :
    (runPipeline ⟨100, 10, 60, [], 30, 10485760, false⟩ "cid"
        ⟨"POST", "/api/v1/samples",
          [("content-type", "text/plain"), ("content-length", "5")],
          "hello", some "8.8.8.8"⟩ [] 0
        ⟨1, .ok ⟨200, [], .handlerData 0⟩⟩).response = globalExceptionResponse ∧
    globalExceptionResponse.status = 500 ∧
    globalExceptionResponse.body =
      .errJson ⟨"Internal server error", "INTERNAL_ERROR", []⟩ ∧
    (renderAPIError (.validation (mkValidationError "Invalid Content-Type: text/plain" none
        [("content_type", .s "text/plain"),
         ("allowed_types", .ls (allowedContentTypesFor "POST"))]))).status = 400 := by
  with_unfolding_all decide

/-- C3: counterexample.  First: a client with one prior request in the window
(well under `sustained_limit = 5`) has its next request rejected (by the
burst ceiling of 1), refuting "every request is admitted".  Second: with
fractional timestamps, a sustained rejection computes
`int(window - (now - oldest)) = int(0.5) = 0`, refuting both
"`retry_after` equal to `window_size_seconds - (now - oldest)`" (which is
1/2 here) and "strictly greater than 0"; the zero is then even dropped from
the error details by Python truthiness. -/
theorem c3_counterexample :
    (checkRateLimit ⟨5, 1, 60, []⟩ "9.9.9.9" [(1 : ℚ)] 2).error ≠ none ∧
    pruneOld 60 2 [(1 : ℚ)] = [(1 : ℚ)] ∧
    sustainedRetryAfter 60 [mkRat 1 2] 60 = 0 ∧
    (checkRateLimit ⟨1, 1, 60, []⟩ "9.9.9.9" [mkRat 1 2] 60).error =
      some (mkRateLimitError "Rate limit exceeded. Too many requests from 9.9.9.9" (some 0)
        [("limit", .i 1), ("window_seconds", .i 60), ("requests_count", .i 1)]) := by
  with_unfolding_all decide

/-- C3 (amended): for a non-whitelisted client, a request finding fewer than
`sustained_limit` surviving timestamps and fewer than `burst_limit` in the
trailing 10 s is admitted with its timestamp appended; a request finding at
least `sustained_limit` surviving timestamps is rejected with
`retry_after = int(window_size - (now - oldest))`, which is nonnegative but
may be 0, and no timestamp is appended. -/
theorem c3_amended_rate_limit_behaviour (cfg : RLConfig) (ip : String)
    (ts : List ℚ) (now : ℚ) (hw : ip ∉ cfg.whitelist) :
    ((pruneOld cfg.windowSize now ts).length < cfg.requestsPerMinute →
      (recentOf now (pruneOld cfg.windowSize now ts)).length < cfg.burstLimit →
      checkRateLimit cfg ip ts now = ⟨none, pruneOld cfg.windowSize now ts ++ [now]⟩) ∧
    (cfg.requestsPerMinute ≤ (pruneOld cfg.windowSize now ts).length →
      0 < cfg.requestsPerMinute →
      checkRateLimit cfg ip ts now =
        ⟨some (mkRateLimitError ("Rate limit exceeded. Too many requests from " ++ ip)
            (some (sustainedRetryAfter cfg.windowSize (pruneOld cfg.windowSize now ts) now))
            [("limit", .i (cfg.requestsPerMinute : Int)),
             ("window_seconds", .i cfg.windowSize),
             ("requests_count", .i ((pruneOld cfg.windowSize now ts).length : Int))]),
          pruneOld cfg.windowSize now ts⟩ ∧
      0 ≤ sustainedRetryAfter cfg.windowSize (pruneOld cfg.windowSize now ts) now) := by
  constructor
  · exact fun h1 h2 => checkRateLimit_pass cfg ip ts now hw h1 h2
  · intro h1 hpos
    constructor
    · simp only [checkRateLimit]
      rw [if_neg hw, if_pos h1]
    · have hne : pruneOld cfg.windowSize now ts ≠ [] := by
        intro hnil
        rw [hnil] at h1
        simp only [List.length_nil] at h1
        omega
      have hmem := headD_mem (pruneOld cfg.windowSize now ts) 0 hne
      have hlt := mem_pruneOld hmem
      have hq : (0 : ℚ) ≤
          (cfg.windowSize : ℚ) - (now - (pruneOld cfg.windowSize now ts).headD 0) := by
        linarith
      exact pyInt_nonneg hq

/-- Witness for the amended C3 theorem: a fresh client is admitted; the
client of the counterexample state is rejected with a nonnegative
`retry_after` and an untouched (pruned, unappended) timestamp list. -/
theorem c3_amended_witness :
    checkRateLimit ⟨2, 2, 60, []⟩ "1.2.3.4" [] 0 = ⟨none, pruneOld 60 0 [] ++ [0]⟩ ∧
    (checkRateLimit ⟨1, 1, 60, []⟩ "9.9.9.9" [mkRat 1 2] 60 =
      ⟨some (mkRateLimitError "Rate limit exceeded. Too many requests from 9.9.9.9"
          (some (sustainedRetryAfter 60 (pruneOld 60 60 [mkRat 1 2]) 60))
          [("limit", .i 1), ("window_seconds", .i 60),
           ("requests_count", .i ((pruneOld 60 60 [mkRat 1 2]).length : Int))]),
        pruneOld 60 60 [mkRat 1 2]⟩ ∧
      0 ≤ sustainedRetryAfter 60 (pruneOld 60 60 [mkRat 1 2]) 60) :=
  ⟨(c3_amended_rate_limit_behaviour ⟨2, 2, 60, []⟩ "1.2.3.4" [] 0 (by simp)).1
      (by with_unfolding_all decide) (by with_unfolding_all decide),
   (c3_amended_rate_limit_behaviour ⟨1, 1, 60, []⟩ "9.9.9.9" [mkRat 1 2] 60 (by simp)).2
      (by with_unfolding_all decide) (by decide)⟩

/-- C4: counterexample.  When the computed `retry_after` is 0 — which the
sustained check does produce, see the last conjunct — `RateLimitError.__init__`
drops the value from the details (`if retry_after:` is false for 0), and the
handler therefore renders the 429 response without any `Retry-After`
header. -/
theorem c4_counterexample :
    (renderAPIError (.rateLimit (mkRateLimitError
        "Rate limit exceeded. Too many requests from 9.9.9.9" (some 0)
        [("limit", .i 1), ("window_seconds", .i 60), ("requests_count", .i 1)]))).status = 429 ∧
    (renderAPIError (.rateLimit (mkRateLimitError
        "Rate limit exceeded. Too many requests from 9.9.9.9" (some 0)
        [("limit", .i 1), ("window_seconds", .i 60), ("requests_count", .i 1)]))).header
      "Retry-After" = none ∧
    (checkRateLimit ⟨1, 1, 60, []⟩ "9.9.9.9" [mkRat 3 2] 61).error =
      some (mkRateLimitError "Rate limit exceeded. Too many requests from 9.9.9.9" (some 0)
        [("limit", .i 1), ("window_seconds", .i 60), ("requests_count", .i 1)]) := by
  with_unfolding_all decide

/-- C4 (amended): the translator's 429 response carries a `Retry-After`
header exactly when the supplied `retry_after` is truthy (neither `None` nor
0); at the boundary value 0 the header is absent. -/
theorem c4_amended_retry_after_header (msg : String) (ra : Option Int)
    (details : List (String × JVal)) (hd : details.lookup "retry_after" = none) :
    (renderAPIError (.rateLimit (mkRateLimitError msg ra details))).status = 429 ∧
    (renderAPIError (.rateLimit (mkRateLimitError msg ra details))).header "Retry-After" =
      (if pyTruthyInt ra then some (toString (ra.getD 0)) else none) := by
  constructor
  · exact renderAPIError_rateLimit_status _
  · rw [renderAPIError_rateLimit_header]
    by_cases h : pyTruthyInt ra = true
    · simp only [mkRateLimitError, if_pos h]
      rw [lookup_append_of_none _ _ _ hd]
      rfl
    · simp only [mkRateLimitError, if_neg h]
      rw [hd]
      rfl

/-- Witness for the amended C4 theorem at a truthy `retry_after`. -/
theorem c4_amended_witness :
    (renderAPIError (.rateLimit (mkRateLimitError "m" (some 5) []))).status = 429 ∧
    (renderAPIError (.rateLimit (mkRateLimitError "m" (some 5) []))).header "Retry-After" =
      (if pyTruthyInt (some 5) then some (toString ((some (5 : Int)).getD 0)) else none) :=
  c4_amended_retry_after_header "m" (some 5) [] rfl

/-- C5: for a non-whitelisted client whose sustained check passes, a request
finding at least `burst_limit` timestamps in the trailing 10-second
sub-window is rejected with `retry_after = 10` (the hard-coded burst window)
and no timestamp appended; and, starting from an empty state, `burst_limit`
requests inside one 10-second span are all admitted while the next request in
that span is rejected even though the client is under the sustained limit. -/
theorem c5_burst_limit_enforced :
    (∀ (cfg : RLConfig) (ip : String) (ts : List ℚ) (now : ℚ),
      ip ∉ cfg.whitelist →
      (pruneOld cfg.windowSize now ts).length < cfg.requestsPerMinute →
      cfg.burstLimit ≤ (recentOf now (pruneOld cfg.windowSize now ts)).length →
      checkRateLimit cfg ip ts now =
        ⟨some (mkRateLimitError
            ("Burst limit exceeded. Too many requests in short period from " ++ ip)
            (some 10)
            [("burst_limit", .i (cfg.burstLimit : Int)), ("window_seconds", .i 10),
             ("recent_requests",
              .i ((recentOf now (pruneOld cfg.windowSize now ts)).length : Int))]),
          pruneOld cfg.windowSize now ts⟩) ∧
    (∀ (cfg : RLConfig) (ip : String) (base tn : ℚ) (times : List ℚ),
      ip ∉ cfg.whitelist → 10 ≤ cfg.windowSize →
      cfg.burstLimit < cfg.requestsPerMinute →
      times.length = cfg.burstLimit →
      (∀ t ∈ times, base ≤ t ∧ t < base + 10) →
      base ≤ tn → tn < base + 10 →
      runRequests cfg ip times [] = (times.map (fun _ => none), times) ∧
      checkRateLimit cfg ip times tn =
        ⟨some (mkRateLimitError
            ("Burst limit exceeded. Too many requests in short period from " ++ ip)
            (some 10)
            [("burst_limit", .i (cfg.burstLimit : Int)), ("window_seconds", .i 10),
             ("recent_requests", .i (cfg.burstLimit : Int))]),
          times⟩) := by
  constructor
  · exact fun cfg ip ts now hw h1 h2 => checkRateLimit_burst_reject cfg ip ts now hw h1 h2
  · intro cfg ip base tn times hw h10 hbr hlen hin htn1 htn2
    have hw10 : (10 : ℚ) ≤ (cfg.windowSize : ℚ) := by exact_mod_cast h10
    have hrun := runRequests_all_pass cfg ip hw h10 (le_of_lt hbr) base times []
      (by simp) hin (by simp [hlen])
    constructor
    · simpa using hrun
    · have hprune : pruneOld cfg.windowSize tn times = times :=
        pruneOld_keep_all fun x hx => by have := hin x hx; linarith [this.1]
      have hrecent : recentOf tn times = times :=
        recentOf_keep_all fun x hx => by have := hin x hx; linarith [this.1]
      have hrej := checkRateLimit_burst_reject cfg ip times tn hw
        (by rw [hprune, hlen]; exact hbr)
        (by rw [hprune, hrecent, hlen])
      rwa [hprune, hrecent, hlen] at hrej

/-- Witness for the C5 theorem: burst rejection in an occupied sub-window,
and the two-admissions-then-reject trace at `burst_limit = 2`. -/
theorem c5_witness :
    checkRateLimit ⟨5, 2, 60, []⟩ "1.1.1.1" [(0 : ℚ), 1, 5] 6 =
      ⟨some (mkRateLimitError
          "Burst limit exceeded. Too many requests in short period from 1.1.1.1"
          (some 10)
          [("burst_limit", .i 2), ("window_seconds", .i 10),
           ("recent_requests",
            .i ((recentOf 6 (pruneOld 60 6 [(0 : ℚ), 1, 5])).length : Int))]),
        pruneOld 60 6 [(0 : ℚ), 1, 5]⟩ ∧
    (runRequests ⟨5, 2, 60, []⟩ "1.1.1.1" [(0 : ℚ), 1] [] =
        ([(0 : ℚ), 1].map (fun _ => none), [(0 : ℚ), 1]) ∧
      checkRateLimit ⟨5, 2, 60, []⟩ "1.1.1.1" [(0 : ℚ), 1] 2 =
        ⟨some (mkRateLimitError
            "Burst limit exceeded. Too many requests in short period from 1.1.1.1"
            (some 10)
            [("burst_limit", .i 2), ("window_seconds", .i 10),
             ("recent_requests", .i 2)]),
          [(0 : ℚ), 1]⟩) :=
  ⟨c5_burst_limit_enforced.1 ⟨5, 2, 60, []⟩ "1.1.1.1" [(0 : ℚ), 1, 5] 6 (by simp)
      (by with_unfolding_all decide) (by with_unfolding_all decide),
   c5_burst_limit_enforced.2 ⟨5, 2, 60, []⟩ "1.1.1.1" 0 2 [(0 : ℚ), 1] (by simp)
      (by decide) (by decide) (by with_unfolding_all decide)
      (by with_unfolding_all decide) (by with_unfolding_all decide)
      (by with_unfolding_all decide)⟩

/-- C6: the timeout guard passes a downstream result through unchanged when
the downstream duration is within the configured deadline; when the deadline
elapses first it emits a `request_timeout` SecurityEvent and synthesizes the
fixed JSON response with status 408, error code `REQUEST_TIMEOUT` and
`details.timeout_seconds` equal to the configured timeout. -/
theorem c6_timeout_guard_behaviour (t : Int) (req : Request) (inner : AppResult) :
    (inner.duration ≤ (t : ℚ) → timeoutRun t req inner = inner) ∧
    ((t : ℚ) < inner.duration →
      timeoutRun t req inner =
        ⟨.ok (timeoutResponse t), (t : ℚ), inner.events ++ [requestTimeoutEvent req t]⟩) ∧
    (timeoutResponse t).status = 408 ∧
    (timeoutResponse t).body =
      .errJson ⟨"Request timeout", "REQUEST_TIMEOUT", [("timeout_seconds", .i t)]⟩ ∧
    (requestTimeoutEvent req t).eventType = "request_timeout" := by
  refine ⟨fun h => ?_, fun h => ?_, rfl, rfl, rfl⟩
  · simp only [timeoutRun]
    rw [if_neg (not_lt.mpr h)]
  · simp only [timeoutRun]
    rw [if_pos h]

/-- Witness for the C6 theorem: a fast handler passes through; a slow one is
replaced by the synthesized 408 and the timeout event. -/
theorem c6_witness :
    timeoutRun 30 ⟨"GET", "/health", [], "", none⟩ ⟨.ok ⟨200, [], .handlerData 0⟩, 1, []⟩ =
      ⟨.ok ⟨200, [], .handlerData 0⟩, 1, []⟩ ∧
    timeoutRun 30 ⟨"GET", "/health", [], "", none⟩ ⟨.ok ⟨200, [], .handlerData 0⟩, 31, []⟩ =
      ⟨.ok (timeoutResponse 30), ((30 : Int) : ℚ),
        [] ++ [requestTimeoutEvent ⟨"GET", "/health", [], "", none⟩ 30]⟩ :=
  ⟨(c6_timeout_guard_behaviour 30 ⟨"GET", "/health", [], "", none⟩
      ⟨.ok ⟨200, [], .handlerData 0⟩, 1, []⟩).1 (by with_unfolding_all decide),
   (c6_timeout_guard_behaviour 30 ⟨"GET", "/health", [], "", none⟩
      ⟨.ok ⟨200, [], .handlerData 0⟩, 31, []⟩).2.1 (by with_unfolding_all decide)⟩

/-- C7: a declared `Content-Length` that parses and exceeds the limit is
rejected without reading the body (the outcome does not depend on the body)
and without running any downstream stage (the outcome does not depend on the
inner result); for body-carrying methods with no declared-length rejection,
a measured body exceeding the limit is rejected post-read with the same
`ValidationError`. -/
theorem c7_payload_size_guard (maxSizeBytes : Nat) (req : Request) :
    (∀ n : Int, usableDeclaredLength req = some n → (maxSizeBytes : Int) < n →
      ∀ (b : String) (inner : AppResult),
        payloadSizeRun maxSizeBytes { req with body := b } inner =
          ⟨.error (.validation (payloadTooLargeError n maxSizeBytes)), 0, []⟩) ∧
    (declaredSizeReject maxSizeBytes req = none →
      bodyCarryingMethod req.method = true →
      maxSizeBytes < req.body.length →
      ∀ inner : AppResult,
        payloadSizeRun maxSizeBytes req inner =
          ⟨.error (.validation (payloadTooLargeError (req.body.length : Int) maxSizeBytes)),
            0, []⟩) := by
  constructor
  · intro n hn hlt b inner
    have hd : declaredSizeReject maxSizeBytes { req with body := b } =
        some (payloadTooLargeError n maxSizeBytes) := by
      have hu : usableDeclaredLength { req with body := b } = some n := hn
      simp only [declaredSizeReject, hu]
      rw [if_pos hlt]
    simp only [payloadSizeRun, hd]
  · intro hnone hbc hsz inner
    simp only [payloadSizeRun, hnone, hbc]
    rw [if_pos hsz]
    simp

/-- Witness for the C7 theorem: a GET with `Content-Length: 2001` against a
2000-byte limit is rejected pre-read for any body; a POST of four bytes
against a 3-byte limit is rejected post-read. -/
theorem c7_witness :
    payloadSizeRun 2000
        { method := "GET", path := "/x", headers := [("content-length", "2001")],
          body := "zz", client := none }
        ⟨.ok ⟨200, [], .handlerData 0⟩, 0, []⟩ =
      ⟨.error (.validation (payloadTooLargeError 2001 2000)), 0, []⟩ ∧
    payloadSizeRun 3 ⟨"POST", "/x", [], "abcd", none⟩ ⟨.ok ⟨200, [], .handlerData 0⟩, 0, []⟩ =
      ⟨.error (.validation (payloadTooLargeError ((4 : Nat) : Int) 3)), 0, []⟩ :=
  ⟨(c7_payload_size_guard 2000
      ⟨"GET", "/x", [("content-length", "2001")], "zz", none⟩).1 2001
      (by with_unfolding_all decide) (by decide) "zz" ⟨.ok ⟨200, [], .handlerData 0⟩, 0, []⟩,
   (c7_payload_size_guard 3 ⟨"POST", "/x", [], "abcd", none⟩).2
      (by with_unfolding_all decide) (by decide) (by decide)
      ⟨.ok ⟨200, [], .handlerData 0⟩, 0, []⟩⟩

/-- C8: on a non-skipped path, for a method with a content-type rule, a
request with a non-empty body whose base MIME type is not allowed is rejected
with a `ValidationError` naming the offending type and the allowed set, while
the identical request with an empty body passes through to the next stage
untouched (a body-less request is never rejected whatever its content-type
header). -/
theorem c8_content_type_guard (req : Request) (inner : AppResult)
    (hskip : ¬ req.path ∈ skipPaths)
    (hm : methodHasContentTypeRule req.method = true) :
    (req.body ≠ "" → ¬ baseContentType req ∈ allowedContentTypesFor req.method →
      contentTypeRun req inner =
        ⟨.error (.validation (mkValidationError
            ("Invalid Content-Type: " ++ ((req.header "content-type").getD "").toLower) none
            [("content_type", .s ((req.header "content-type").getD "").toLower),
             ("allowed_types", .ls (allowedContentTypesFor req.method))])), 0, []⟩) ∧
    contentTypeRun { req with body := "" } inner = inner := by
  constructor
  · intro hb hnotmem
    have hv : validateContentType req =
        some (mkValidationError
          ("Invalid Content-Type: " ++ ((req.header "content-type").getD "").toLower) none
          [("content_type", .s ((req.header "content-type").getD "").toLower),
           ("allowed_types", .ls (allowedContentTypesFor req.method))]) := by
      simp only [validateContentType]
      rw [if_pos ⟨hb, hnotmem⟩]
    simp only [contentTypeRun, hm, if_true, hv]
    rw [if_neg hskip]
  · have hskip' : ¬ ({ req with body := "" } : Request).path ∈ skipPaths := hskip
    have hm' : methodHasContentTypeRule ({ req with body := "" } : Request).method = true := hm
    have hv : validateContentType { req with body := "" } = none := by
      simp [validateContentType]
    simp only [contentTypeRun, hm', if_true, hv]
    rw [if_neg hskip']

/-- Witness for the C8 theorem: a POST of `text/plain; charset=utf-8` with a
non-empty body is rejected naming the offending type and the allowed set; the
identical POST with an empty body is passed through. -/
theorem c8_witness :
    contentTypeRun
        { method := "POST", path := "/api/v1/samples",
          headers := [("content-type", "text/plain; charset=utf-8")],
          body := "hello", client := none }
        ⟨.ok ⟨200, [], .handlerData 0⟩, 0, []⟩ =
      ⟨.error (.validation (mkValidationError
          ("Invalid Content-Type: " ++
            ((({ method := "POST", path := "/api/v1/samples",
                 headers := [("content-type", "text/plain; charset=utf-8")],
                 body := "hello", client := none } : Request).header
                "content-type").getD "").toLower) none
          [("content_type",
            .s ((({ method := "POST", path := "/api/v1/samples",
                    headers := [("content-type", "text/plain; charset=utf-8")],
                    body := "hello", client := none } : Request).header
                   "content-type").getD "").toLower),
           ("allowed_types", .ls (allowedContentTypesFor "POST"))])), 0, []⟩ ∧
    contentTypeRun
        { method := "POST", path := "/api/v1/samples",
          headers := [("content-type", "text/plain; charset=utf-8")],
          body := "", client := none }
        ⟨.ok ⟨200, [], .handlerData 0⟩, 0, []⟩ =
      ⟨.ok ⟨200, [], .handlerData 0⟩, 0, []⟩ :=
  ⟨(c8_content_type_guard
      ⟨"POST", "/api/v1/samples", [("content-type", "text/plain; charset=utf-8")],
        "hello", none⟩
      ⟨.ok ⟨200, [], .handlerData 0⟩, 0, []⟩
      (by with_unfolding_all decide) (by decide)).1
      (by decide) (by with_unfolding_all decide),
   (c8_content_type_guard
      ⟨"POST", "/api/v1/samples", [("content-type", "text/plain; charset=utf-8")],
        "hello", none⟩
      ⟨.ok ⟨200, [], .handlerData 0⟩, 0, []⟩
      (by with_unfolding_all decide) (by decide)).2⟩

/-- C9: counterexample.  With `X-Forwarded-For: ",9.9.9.9"` the header is
truthy as a whole, so the code returns its first comma-entry stripped — the
empty string — instead of falling through to the next source; the function of
the claim's wording returns the real-ip value instead. -/
theorem c9_counterexample :
    getClientIp (some ",9.9.9.9") (some "1.2.3.4") (some "7.7.7.7") = "" ∧
    specClientIp (some ",9.9.9.9") (some "1.2.3.4") (some "7.7.7.7") = "1.2.3.4" ∧
    getClientIp (some ",9.9.9.9") (some "1.2.3.4") (some "7.7.7.7") ≠
      specClientIp (some ",9.9.9.9") (some "1.2.3.4") (some "7.7.7.7") := by
  with_unfolding_all decide

/-- C9 (amended): client-key resolution is a pure total function that tests
emptiness of the whole forwarded-for header (not of its first entry): a
non-empty forwarded-for header yields its trimmed first comma-entry even when
that entry is empty; otherwise a non-empty real-ip header yields its trimmed
value; otherwise the peer address, or `"unknown"` when absent. -/
theorem c9_amended_client_ip_resolution (xff realIp host : Option String) :
    (xff.getD "" ≠ "" →
      getClientIp xff realIp host = (((xff.getD "").splitOn ",").headD "").trim) ∧
    (xff.getD "" = "" → realIp.getD "" ≠ "" →
      getClientIp xff realIp host = (realIp.getD "").trim) ∧
    (xff.getD "" = "" → realIp.getD "" = "" →
      getClientIp xff realIp host = host.getD "unknown") := by
  refine ⟨fun h => ?_, fun h1 h2 => ?_, fun h1 h2 => ?_⟩
  · simp only [getClientIp]
    rw [if_pos h]
  · simp only [getClientIp]
    rw [if_neg (fun hne => hne h1), if_pos h2]
  · simp only [getClientIp]
    rw [if_neg (fun hne => hne h1), if_neg (fun hne => hne h2)]

/-- Witness for the amended C9 theorem on all three branches. -/
theorem c9_amended_witness :
    getClientIp (some "1.2.3.4, 5.6.7.8") (some "9.9.9.9") (some "h") =
      ((((some "1.2.3.4, 5.6.7.8").getD "").splitOn ",").headD "").trim ∧
    getClientIp none (some " 7.7.7.7 ") (some "h") = ((some " 7.7.7.7 ").getD "").trim ∧
    getClientIp none none (some "h") = (some "h").getD "unknown" :=
  ⟨(c9_amended_client_ip_resolution (some "1.2.3.4, 5.6.7.8") (some "9.9.9.9") (some "h")).1
      (by decide),
   (c9_amended_client_ip_resolution none (some " 7.7.7.7 ") (some "h")).2.1 rfl (by decide),
   (c9_amended_client_ip_resolution none none (some "h")).2.2 rfl rfl⟩

/-- C10: a `Content-Length` header that does not parse as an integer is
unusable, so the declared-size check never rejects on it; and for a method
outside POST/PUT/PATCH the guard never measures the body, so such a request
passes the payload-size guard whatever its actual body. -/
theorem c10_unparseable_length_ignored (maxSizeBytes : Nat) (req : Request)
    (inner : AppResult) (h : usableDeclaredLength req = none) :
    declaredSizeReject maxSizeBytes req = none ∧
    (bodyCarryingMethod req.method = false →
      ∀ b : String, payloadSizeRun maxSizeBytes { req with body := b } inner = inner) := by
  have hd : declaredSizeReject maxSizeBytes req = none := by
    simp only [declaredSizeReject, h]
  refine ⟨hd, fun hbc b => ?_⟩
  have hd' : declaredSizeReject maxSizeBytes { req with body := b } = none := hd
  have hbc' : bodyCarryingMethod ({ req with body := b } : Request).method = false := hbc
  simp [payloadSizeRun, hd', hbc']

/-- Witness for the C10 theorem: a GET with `Content-Length: abc` and a large
body passes the payload-size guard against a 1-byte limit. -/
theorem c10_witness :
    declaredSizeReject 1 ⟨"GET", "/x", [("content-length", "abc")], "", none⟩ = none ∧
    payloadSizeRun 1
        { (⟨"GET", "/x", [("content-length", "abc")], "", none⟩ : Request) with
          body := "xxxxxxxx" }
        ⟨.ok ⟨200, [], .handlerData 0⟩, 0, []⟩ =
      ⟨.ok ⟨200, [], .handlerData 0⟩, 0, []⟩ :=
  ⟨(c10_unparseable_length_ignored 1 ⟨"GET", "/x", [("content-length", "abc")], "", none⟩
      ⟨.ok ⟨200, [], .handlerData 0⟩, 0, []⟩ (by with_unfolding_all decide)).1,
   (c10_unparseable_length_ignored 1 ⟨"GET", "/x", [("content-length", "abc")], "", none⟩
      ⟨.ok ⟨200, [], .handlerData 0⟩, 0, []⟩ (by with_unfolding_all decide)).2
      (by decide) "xxxxxxxx"⟩

end ClinicalGate
